import Mathlib

/-!
# Shallow embedding of the `serial-logger` repository

This file embeds the three source files of the repository:

* `HistoryService` (command-history persistence: `load`, `save`, `clear`,
  `pushFront`, `deleteAt`);
* `SerialService` (Web Serial connection manager: `openPort`, `send`,
  `disconnect`);
* the history-navigation handler `AppComponent.handleKeyDown`.

External collaborators (browser `localStorage`, the Web Serial API, rxjs
subjects) are modelled at their interface boundary: storage content is
classified by how `JSON.parse`/shape checks treat it, devices carry the
environment-determined outcomes of `open()`/channel presence, and subject
emissions are recorded as explicit lists.  Asynchronous calls are sequential
in the source (each `await`ed in order), so they are embedded as sequential
state transformations; attempted side effects on external resources
(cancel/release/close/open/write) are recorded in an event trace.
-/

namespace SerialLogger

/-! ## HistoryService (storage model)

The persisted blob, from the `CommandHistoryBlob` interface:
`{ version: number; items: string[]; updatedAt: number }`.
-/

structure CommandHistoryBlob where
  version : Nat
  items : List String
  updatedAt : Nat
deriving DecidableEq

/-- The raw content of `localStorage` under the history key, classified by
how `HistoryService.load` treats it:
* `absent` — `getItem` returns `null`;
* `emptyString` — the raw value is `""` (falsy, same early return as `null`);
* `unparsable` — `JSON.parse` throws (caught by the `try`/`catch`);
* `parsedNonObject` — parses to a falsy value (`!blob`);
* `parsedNoItems` — parses to an object whose `items` is not an array;
* `parsedBlob b` — parses to a blob with a string-array `items` field. -/
inductive RawStorage where
  | absent
  | emptyString
  | unparsable
  | parsedNonObject
  | parsedNoItems
  | parsedBlob (blob : CommandHistoryBlob)
deriving DecidableEq

/-- Embeds `HistoryService.load`: safe parse with fallbacks; every branch other than
a well-formed blob returns `[]`. -/
def load : RawStorage → List String
  | RawStorage.absent => []
  | RawStorage.emptyString => []
  | RawStorage.unparsable => []
  | RawStorage.parsedNonObject => []
  | RawStorage.parsedNoItems => []
  | RawStorage.parsedBlob b => b.items

/-- JS `String.prototype.trim()`: drops leading and trailing whitespace.
Embedded structurally on the character list (the core `String.trim` function is
equivalent but is defined through substring auxiliaries that do not reduce
in the kernel). -/
def jsTrim (s : String) : String :=
  ⟨((s.data.dropWhile Char.isWhitespace).reverse.dropWhile
      Char.isWhitespace).reverse⟩

/-- Embeds `HistoryService.version = 1`. -/
def historyVersion : Nat := 1

/-- Embeds `HistoryService.save`: writes `{ version, items, updatedAt: Date.now() }`;
`now` stands for `Date.now()`. -/
def save (items : List String) (now : Nat) : RawStorage :=
  RawStorage.parsedBlob ⟨historyVersion, items, now⟩

/-- Embeds `HistoryService.clear`: `localStorage.removeItem(key)`. -/
def clear : RawStorage := RawStorage.absent

/-- Embeds `HistoryService.pushFront(cmd, opts)`: returns the updated storage
together with the returned list.  `dedupeHead` and `mx` are the option
fields (`opts?.dedupeHead ?? true`, `opts?.max ?? 50`); `mx` is an `Int`
because a JS caller may pass any number, and the source clamps it with
`Math.max(1, ...)`.  `now` is `Date.now()` at the saving step. -/
def pushFront (st : RawStorage) (cmd : String) (dedupeHead : Bool) (mx : Int)
    (now : Nat) : RawStorage × List String :=
  let m : Int := max 1 mx
  let items := load st
  let trimmed := jsTrim cmd
  if trimmed = "" then (st, items)
  else if dedupeHead ∧ items.head? = some trimmed then (st, items)
  else
    let filtered := items.filter (fun i => i != trimmed)
    let fronted := trimmed :: filtered
    let capped := if (fronted.length : Int) > m then fronted.take m.toNat else fronted
    (save capped now, capped)

/-- Embeds `HistoryService.deleteAt(index)`: no-op on an out-of-range index,
otherwise `splice(index, 1)` and save. -/
def deleteAt (st : RawStorage) (index : Int) (now : Nat) :
    RawStorage × List String :=
  let items := load st
  if index < 0 ∨ (items.length : Int) ≤ index then (st, items)
  else
    let items := items.eraseIdx index.toNat
    (save items now, items)

/-- Runs a sequence of `pushFront` calls, each with its own command,
`dedupeHead` flag and timestamp, all with the same `max` option `mx`. -/
def runPushes (st : RawStorage) (calls : List (String × Bool × Nat))
    (mx : Int) : RawStorage :=
  calls.foldl (fun s c => (pushFront s c.1 c.2.1 mx c.2.2).1) st

/-! ## SerialService (connection manager model)

A `Device` is a `SerialPort` handle together with the environment-determined
outcomes of interacting with it: whether `port.open` resolves (and the
`String(err)` text when it rejects), and whether `port.readable` /
`port.writable` are non-null. -/

structure Device where
  id : Nat
  openOk : Bool
  openErr : String
  hasReadable : Bool
  hasWritable : Bool
deriving DecidableEq

/-- Attempted operations on external resources, in program order.
`readerCancel`/`readerRelease`/`writerClose`/`writerRelease`/`portClose`
are the best-effort teardown calls of `disconnect`; `portOpen`,
`writerAcquire`, `readerAcquire`, `readLoopStart` are the setup steps of
`openPort`; `writeData` is a `writer.write(encoder.encode(text))` attempt. -/
inductive Ev where
  | readerCancel (d : Nat)
  | readerRelease (d : Nat)
  | writerClose (d : Nat)
  | writerRelease (d : Nat)
  | portClose (d : Nat)
  | portOpen (d : Nat)
  | writerAcquire (d : Nat)
  | readerAcquire (d : Nat)
  | readLoopStart (d : Nat)
  | writeData (d : Nat) (text : String)
deriving DecidableEq

/-- The mutable fields of `SerialService`.  `reader`/`writer` hold the id of
the device whose streams they lock; `connected` is `connected$.value`;
`connectedEmits` records every `connected$.next(b)` call; `pairedAvail` is
`pairedPortsAvailable$.value`; `events` is the trace of attempted external
operations. -/
structure SvcState where
  port : Option Device
  reader : Option Nat
  writer : Option Nat
  baud : Nat
  connected : Bool
  connectedEmits : List Bool
  pairedAvail : Bool
  events : List Ev
deriving DecidableEq

/-- The service as constructed: no port, no reader/writer, `baud$` at
115200, `connected$` at `false`, no emissions, no events yet. -/
def initState : SvcState :=
  { port := none, reader := none, writer := none, baud := 115200,
    connected := false, connectedEmits := [], pairedAvail := false,
    events := [] }

/-- Embeds `SerialService.disconnect`: best-effort teardown in source order —
cancel+release the reader if held, close+release the writer if held, close
the port if held, null out all three references, re-run
`checkPairedPorts` (`avail` is the answer of the environment, `false` when
`getPorts` rejects), and emit `connected$.next(false)` only if
`connected$.value` was `true`. -/
def disconnect (st : SvcState) (avail : Bool) : SvcState :=
  let evs := st.events
      ++ (match st.reader with
          | some d => [Ev.readerCancel d, Ev.readerRelease d]
          | none => [])
      ++ (match st.writer with
          | some d => [Ev.writerClose d, Ev.writerRelease d]
          | none => [])
      ++ (match st.port with
          | some dev => [Ev.portClose dev.id]
          | none => [])
  { port := none, reader := none, writer := none, baud := st.baud,
    connected := false,
    connectedEmits := st.connectedEmits ++ (if st.connected then [false] else []),
    pairedAvail := avail,
    events := evs }

/-- The literal message of the `throw` inside `openPort` when the opened
port lacks a readable or writable stream. -/
def portNotStreamableMsg : String := "Selected serial port is not readable/writable."

/-- Message template of the `catch` block of `openPort`:
`Failed to open serial port: ${String(err)}`. -/
def openFailedMsg (cause : String) : String :=
  "Failed to open serial port: " ++ cause

/-- Result of `String(err)` for a thrown `new Error(msg)`. -/
def errToString (msg : String) : String := "Error: " ++ msg

/-- Literal message of the guard throw in `send` when no writer is held. -/
def notConnectedMsg : String := "Not connected to a serial port."

/-- Embeds `SerialService.openPort(port, baud)`: first `await this.disconnect()`,
then inside a `try`: `port.open` (rejection reaches the `catch`), record
the port and `baud$.next(baud)`, check `readable`/`writable` (on absence:
`await this.disconnect()` then `throw`, which the same `catch` intercepts),
acquire writer then reader, `connected$.next(true)`, and start the read
loop detached.  The `catch` disconnects again and rethrows
`Failed to open serial port: ${String(err)}`. -/
def openPort (st : SvcState) (dev : Device) (baud : Nat) (avail : Bool) :
    SvcState × Except String Unit :=
  let st := disconnect st avail
  if dev.openOk = false then
    (disconnect st avail, Except.error (openFailedMsg dev.openErr))
  else
    let st := { st with
      port := some dev
      baud := baud
      events := st.events ++ [Ev.portOpen dev.id] }
    if dev.hasReadable = false ∨ dev.hasWritable = false then
      let st := disconnect st avail
      let st := disconnect st avail
      (st, Except.error (openFailedMsg (errToString portNotStreamableMsg)))
    else
      let st := { st with
        writer := some dev.id
        events := st.events ++ [Ev.writerAcquire dev.id] }
      let st := { st with
        reader := some dev.id
        events := st.events ++ [Ev.readerAcquire dev.id] }
      let st := { st with
        connected := true
        connectedEmits := st.connectedEmits ++ [true] }
      let st := { st with events := st.events ++ [Ev.readLoopStart dev.id] }
      (st, Except.ok ())

/-- Embeds `SerialService.send(text)`: throws `Not connected to a serial port.`
if no writer is held, before any encoding or write; otherwise attempts the
write (`writeOk`/`writeErr` carry the outcome in the environment), and on
rejection disconnects then throws `Failed to send data: ${String(err)}`. -/
def send (st : SvcState) (text : String) (avail writeOk : Bool)
    (writeErr : String) : SvcState × Except String Unit :=
  match st.writer with
  | none => (st, Except.error notConnectedMsg)
  | some d =>
    let st := { st with events := st.events ++ [Ev.writeData d text] }
    if writeOk then (st, Except.ok ())
    else (disconnect st avail, Except.error ("Failed to send data: " ++ writeErr))

/-! ## AppComponent history navigation (`handleKeyDown`) -/

/-- The fields of `AppComponent` that `handleKeyDown` reads and writes. -/
structure NavState where
  commandHistory : List String
  historyIndex : Int
  tempInputBeforeHistory : String
  inputText : String
deriving DecidableEq

/-- The keys `handleKeyDown` distinguishes. -/
inductive Key where
  | arrowUp
  | arrowDown
  | other
deriving DecidableEq

/-- Embeds `AppComponent.handleKeyDown`: ArrowUp snapshots the edit buffer on the
first press (`historyIndex === -1`) and, when
`historyIndex < commandHistory.length - 1`, increments the index and loads
`commandHistory[historyIndex]`; ArrowDown decrements and loads when
`historyIndex > 0`, and restores the snapshot with index `-1` when
`historyIndex === 0`.  The indexing is in bounds whenever
`historyIndex ≥ -1` (which both branches preserve), so the JS subscript is
embedded as `getD _ ""`. -/
def handleKeyDown (s : NavState) (k : Key) : NavState :=
  match k with
  | Key.arrowUp =>
    let s := if s.historyIndex = -1 then
        { s with tempInputBeforeHistory := s.inputText }
      else s
    if s.historyIndex < (s.commandHistory.length : Int) - 1 then
      let i := s.historyIndex + 1
      { s with
        historyIndex := i
        inputText := s.commandHistory.getD i.toNat "" }
    else s
  | Key.arrowDown =>
    if s.historyIndex > 0 then
      let i := s.historyIndex - 1
      { s with
        historyIndex := i
        inputText := s.commandHistory.getD i.toNat "" }
    else if s.historyIndex = 0 then
      { s with historyIndex := -1, inputText := s.tempInputBeforeHistory }
    else s
  | Key.other => s

/-! ## Concrete inputs shared by several proofs -/

/-- A device that opens fine but has no readable stream. -/
def devNoRead : Device := ⟨1, true, "", false, true⟩

/-- A healthy device with id 1. -/
def devA : Device := ⟨1, true, "", true, true⟩

/-- A healthy device with id 2. -/
def devB : Device := ⟨2, true, "", true, true⟩

/-- A state with a fully open session on `devA`. -/
def stA : SvcState :=
  { port := some devA, reader := some 1, writer := some 1, baud := 115200,
    connected := true, connectedEmits := [true], pairedAvail := true,
    events := [] }

/-- Navigation start state of the C9 scenario: ring `["c2","c1"]`, not
browsing, edit buffer `"draft"`. -/
def navS0 : NavState := ⟨["c2", "c1"], -1, "", "draft"⟩

/-- Navigation state after one older press: index 0, buffer `"c2"`,
snapshot `"draft"`. -/
def navS1 : NavState := ⟨["c2", "c1"], 0, "draft", "c2"⟩

/-- Navigation state after two older presses: index 1, buffer `"c1"`. -/
def navS2 : NavState := ⟨["c2", "c1"], 1, "draft", "c1"⟩

/-- Navigation state after returning below index 0: not browsing again,
buffer restored from the snapshot. -/
def navS4 : NavState := ⟨["c2", "c1"], -1, "draft", "draft"⟩

/-! ## Helper lemmas -/

/-- Saving then loading gives back the item list. -/
theorem load_save (l : List String) (t : Nat) : load (save l t) = l := rfl

/-- The list returned by `pushFront` is exactly what `load` reads back from
the storage `pushFront` leaves behind. -/
theorem pushFront_snd_eq_load (st : RawStorage) (c : String) (d : Bool)
    (mx : Int) (t : Nat) :
    (pushFront st c d mx t).2 = load (pushFront st c d mx t).1 := by
  unfold pushFront
  dsimp only
  split
  · rfl
  · split
    · rfl
    · rfl

/-- Filtering out `x` and re-consing it preserves `Nodup`. -/
theorem nodup_cons_filter (l : List String) (x : String) (h : l.Nodup) :
    (x :: l.filter (fun i => i != x)).Nodup := by
  refine List.Nodup.cons ?_ (h.filter _)
  intro hx
  have hpx := List.of_mem_filter hx
  simp at hpx

/-- One `pushFront` call preserves the history invariant: the stored list
stays duplicate-free and no longer than the clamped maximum. -/
theorem pushFront_preserves_inv (st : RawStorage) (c : String) (d : Bool)
    (mx : Int) (t : Nat)
    (h : (load st).Nodup ∧ ((load st).length : Int) ≤ max 1 mx) :
    (load (pushFront st c d mx t).1).Nodup ∧
      ((load (pushFront st c d mx t).1).length : Int) ≤ max 1 mx := by
  unfold pushFront
  dsimp only
  split
  · exact h
  · split
    · exact h
    · rw [load_save]
      split
      · rename_i hgt
        constructor
        · exact ((nodup_cons_filter _ _ h.1).sublist (List.take_sublist _ _))
        · have h1 : (1 : Int) ≤ max 1 mx := le_max_left 1 mx
          have h0 : (0 : Int) ≤ max 1 mx := le_trans zero_le_one h1
          have hlen := List.length_take_le (max 1 mx).toNat
            (jsTrim c :: (load st).filter (fun i => i != jsTrim c))
          calc (((jsTrim c :: (load st).filter (fun i => i != jsTrim c)).take
                  (max 1 mx).toNat).length : Int)
              ≤ ((max 1 mx).toNat : Int) := by exact_mod_cast hlen
            _ = max 1 mx := Int.toNat_of_nonneg h0
      · rename_i hle
        exact ⟨nodup_cons_filter _ _ h.1, le_of_not_lt hle⟩

theorem runPushes_inv (calls : List (String × Bool × Nat)) (mx : Int)
    (st : RawStorage)
    (h : (load st).Nodup ∧ ((load st).length : Int) ≤ max 1 mx) :
    (load (runPushes st calls mx)).Nodup ∧
      ((load (runPushes st calls mx)).length : Int) ≤ max 1 mx := by
  induction calls generalizing st with
  | nil => exact h
  | cons c cs ih =>
    exact ih _ (pushFront_preserves_inv st c.1 c.2.1 mx c.2.2 h)

/-! ## The claims -/

/-- C8: for every storage content other than a blob with a well-formed
`items` array — absent, empty raw value, unparsable JSON, falsy parse
result, or JSON without an `items` array — `load` returns the empty list
(and, being a total function, never throws). -/
theorem load_corrupted_storage :
    load RawStorage.absent = [] ∧ load RawStorage.emptyString = [] ∧
    load RawStorage.unparsable = [] ∧ load RawStorage.parsedNonObject = [] ∧
    load RawStorage.parsedNoItems = [] :=
  ⟨rfl, rfl, rfl, rfl, rfl⟩

/-- C7: for every list of non-empty trimmed strings whose length respects
the maximum, `save` followed by `load` returns exactly that list, order and
contents unchanged. -/
theorem save_load_roundtrip (x : List String) (now : Nat)
    (_hx : ∀ s ∈ x, jsTrim s = s ∧ s ≠ "") (_hlen : x.length ≤ 50) :
    load (save x now) = x := rfl

/-- Witness for C7 at the concrete list `["b", "a"]`. -/
theorem save_load_roundtrip_witness : load (save ["b", "a"] 7) = ["b", "a"] :=
  save_load_roundtrip ["b", "a"] 7 (by decide) (by decide)

/-- C1: for every sequence of `pushFront` calls starting from an empty
history with a configured maximum of at least 1 (default 50), the stored
list after every call — which is also the list each call returns — has
length at most the maximum and contains no two equal entries. -/
theorem pushFront_sequence_invariant (calls : List (String × Bool × Nat))
    (mx : Int) (hmx : 1 ≤ mx) :
    ((load (runPushes RawStorage.absent calls mx)).Nodup ∧
      ((load (runPushes RawStorage.absent calls mx)).length : Int) ≤ mx) ∧
    (∀ st c d t, (pushFront st c d mx t).2 = load (pushFront st c d mx t).1) := by
  have hclamp : max 1 mx = mx := max_eq_right hmx
  constructor
  · have h := runPushes_inv calls mx RawStorage.absent
      (by simp [load, le_max_left])
    rw [hclamp] at h
    exact h
  · intro st c d t
    exact pushFront_snd_eq_load st c d mx t

/-- Witness for C1 at the default maximum 50 and a concrete call list. -/
theorem pushFront_sequence_invariant_witness :
    (load (runPushes RawStorage.absent
        [("b", true, 0), ("a", true, 1), ("b", true, 2)] 50)).Nodup ∧
    ((load (runPushes RawStorage.absent
        [("b", true, 0), ("a", true, 1), ("b", true, 2)] 50)).length : Int) ≤ 50 :=
  (pushFront_sequence_invariant
    [("b", true, 0), ("a", true, 1), ("b", true, 2)] 50 (by decide)).1

/-- C10 counterexample: the claim does not hold for every non-empty trimmed
command under `max ≤ 0` — with stored history `["x", "y"]`, pushing `"x"`
with `dedupeHead = true` and `max = 0` hits the head-dedupe early return
and gives back `["x", "y"]` unchanged, a list of length 2, not a length-1
singleton holding the command. -/
theorem pushFront_clamped_max_counterexample :
    (pushFront (save ["x", "y"] 0) "x" true 0 1).2 = ["x", "y"] ∧
    (pushFront (save ["x", "y"] 0) "x" true 0 1).2.length ≠ 1 := by decide

/-- C10 amended: `pushFront` clamps the `max` option to at least 1, so
whenever a non-blank command is actually inserted (the call is not
suppressed by the head-dedupe early return, which gives back the previous
list unchanged) under a maximum `mx ≤ 0`, the returned list is exactly the
one-element list holding the trimmed command — such a push never produces
an empty list. -/
theorem pushFront_clamped_max (st : RawStorage) (c : String) (d : Bool)
    (mx : Int) (t : Nat) (hmx : mx ≤ 0) (hc : jsTrim c ≠ "")
    (hd : ¬(d = true ∧ (load st).head? = some (jsTrim c))) :
    (pushFront st c d mx t).2 = [jsTrim c] := by
  have hm : max 1 mx = 1 := max_eq_left (le_trans hmx zero_le_one)
  unfold pushFront
  dsimp only
  rw [hm, if_neg hc, if_neg hd]
  cases hf : (load st).filter (fun i => i != jsTrim c) with
  | nil => simp [hf]
  | cons a as =>
    have hgt : ((jsTrim c :: a :: as).length : Int) > 1 := by
      simp only [List.length_cons]
      push_cast
      omega
    rw [if_pos hgt]
    rfl

/-- Witness for C10: pushing `"x"` with `max = 0` over a stored history
`["y", "z"]` still returns the singleton `["x"]`. -/
theorem pushFront_clamped_max_witness :
    (pushFront (save ["y", "z"] 0) "x" true 0 1).2 = [jsTrim "x"] :=
  pushFront_clamped_max (save ["y", "z"] 0) "x" true 0 1 (by decide)
    (by decide) (by decide)

/-- C6: starting from an empty history, pushing `"b"`, then `"a"`, then
`"b"` again yields `["b", "a"]` — the stale occurrence of `"b"` is removed
before re-inserting at the front. -/
theorem pushFront_global_dedupe :
    (pushFront (pushFront (pushFront RawStorage.absent "b" true 50 0).1
        "a" true 50 1).1 "b" true 50 2).2 = ["b", "a"] := by decide

/-- C2 counterexample: opening a device that opens fine but has no readable
stream does not surface the bare not-streamable error: the inner throw is
intercepted by the catch block of `openPort`, so the surfaced error is the
generic open-failure wrapper around it, indistinguishable in kind from any
other open failure. -/
theorem openPort_notStreamable_counterexample :
    (openPort initState devNoRead 9600 false).2 =
      Except.error (openFailedMsg (errToString portNotStreamableMsg)) ∧
    openFailedMsg (errToString portNotStreamableMsg) ≠ portNotStreamableMsg :=
  ⟨rfl, by decide⟩

/-- C2 amended: for every device whose open succeeds but whose readable or
writable channel is absent, `openPort` tears the session down and fails
with the open-failure wrapper whose cause is the not-streamable message
(`Failed to open serial port: Error: Selected serial port is not
readable/writable.`), leaving the manager disconnected. -/
theorem openPort_notStreamable (st : SvcState) (dev : Device) (baud : Nat)
    (avail : Bool) (hopen : dev.openOk = true)
    (hstream : dev.hasReadable = false ∨ dev.hasWritable = false) :
    (openPort st dev baud avail).2 =
      Except.error (openFailedMsg (errToString portNotStreamableMsg)) ∧
    (openPort st dev baud avail).1.port = none ∧
    (openPort st dev baud avail).1.reader = none ∧
    (openPort st dev baud avail).1.writer = none ∧
    (openPort st dev baud avail).1.connected = false := by
  unfold openPort
  simp [hopen, hstream, disconnect]

/-- Witness for the amended C2 at the concrete device `devNoRead`. -/
theorem openPort_notStreamable_witness :
    (openPort initState devNoRead 9600 false).2 =
      Except.error (openFailedMsg (errToString portNotStreamableMsg)) ∧
    (openPort initState devNoRead 9600 false).1.port = none ∧
    (openPort initState devNoRead 9600 false).1.reader = none ∧
    (openPort initState devNoRead 9600 false).1.writer = none ∧
    (openPort initState devNoRead 9600 false).1.connected = false :=
  openPort_notStreamable initState devNoRead 9600 false rfl (Or.inl rfl)

/-- C3: `disconnect` is idempotent and safe in every state, including the
idle one; the connectivity-false notification is emitted exactly once per
connected session — a disconnect on a connected state appends exactly one
`false` emission, and a disconnect on an already-disconnected state appends
none (so a second `disconnect` changes nothing at all). -/
theorem disconnect_idempotent :
    (∀ st avail, disconnect (disconnect st avail) avail = disconnect st avail) ∧
    (∀ st avail, st.connected = true →
      (disconnect st avail).connectedEmits = st.connectedEmits ++ [false]) ∧
    (∀ st avail, st.connected = false →
      (disconnect st avail).connectedEmits = st.connectedEmits) := by
  refine ⟨fun st avail => ?_, fun st avail h => ?_, fun st avail h => ?_⟩
  · simp [disconnect]
  · simp [disconnect, h]
  · simp [disconnect, h]

/-- Witness for C3: a second disconnect after disconnecting the open
session `stA` is a no-op, and the first one emits exactly one `false`. -/
theorem disconnect_idempotent_witness :
    disconnect (disconnect stA true) true = disconnect stA true ∧
    (disconnect stA true).connectedEmits = stA.connectedEmits ++ [false] :=
  ⟨disconnect_idempotent.1 stA true, disconnect_idempotent.2.1 stA true rfl⟩

/-- C4: with a session fully open on device `A`, opening device `B` without
an explicit prior disconnect first performs the complete teardown of `A` —
reader cancelled and released, writer closed and released, port closed —
strictly before `B` is opened, and the resulting state references only `B`
(its port, its reader and writer locks, the new baud, connected). -/
theorem openPort_reentrant (st : SvcState) (A B : Device) (baud : Nat)
    (avail : Bool) (hport : st.port = some A) (hr : st.reader = some A.id)
    (hw : st.writer = some A.id) (hc : st.connected = true)
    (hB1 : B.openOk = true) (hB2 : B.hasReadable = true)
    (hB3 : B.hasWritable = true) :
    (openPort st B baud avail).2 = Except.ok () ∧
    (openPort st B baud avail).1.port = some B ∧
    (openPort st B baud avail).1.reader = some B.id ∧
    (openPort st B baud avail).1.writer = some B.id ∧
    (openPort st B baud avail).1.connected = true ∧
    (openPort st B baud avail).1.baud = baud ∧
    (openPort st B baud avail).1.events = st.events ++
      [Ev.readerCancel A.id, Ev.readerRelease A.id, Ev.writerClose A.id,
       Ev.writerRelease A.id, Ev.portClose A.id, Ev.portOpen B.id,
       Ev.writerAcquire B.id, Ev.readerAcquire B.id, Ev.readLoopStart B.id] := by
  unfold openPort
  simp [disconnect, hport, hr, hw, hc, hB1, hB2, hB3]

/-- Witness for C4: re-entrant open of `devB` over the open session on
`devA`. -/
theorem openPort_reentrant_witness :
    (openPort stA devB 9600 true).2 = Except.ok () ∧
    (openPort stA devB 9600 true).1.port = some devB ∧
    (openPort stA devB 9600 true).1.reader = some devB.id ∧
    (openPort stA devB 9600 true).1.writer = some devB.id ∧
    (openPort stA devB 9600 true).1.connected = true ∧
    (openPort stA devB 9600 true).1.baud = 9600 ∧
    (openPort stA devB 9600 true).1.events = stA.events ++
      [Ev.readerCancel devA.id, Ev.readerRelease devA.id,
       Ev.writerClose devA.id, Ev.writerRelease devA.id, Ev.portClose devA.id,
       Ev.portOpen devB.id, Ev.writerAcquire devB.id, Ev.readerAcquire devB.id,
       Ev.readLoopStart devB.id] :=
  openPort_reentrant stA devA devB 9600 true rfl rfl rfl rfl rfl rfl rfl

/-- C5: `send` on a manager holding no writer fails with the not-connected
error and returns the state unchanged — in particular no write attempt is
recorded and nothing is torn down or emitted. -/
theorem send_not_connected (st : SvcState) (text : String)
    (avail writeOk : Bool) (writeErr : String) (h : st.writer = none) :
    send st text avail writeOk writeErr = (st, Except.error notConnectedMsg) := by
  unfold send
  rw [h]

/-- Witness for C5 on the freshly constructed service. -/
theorem send_not_connected_witness :
    send initState "hello\n" false true "" =
      (initState, Except.error notConnectedMsg) :=
  send_not_connected initState "hello\n" false true "" rfl

/-- C9: the arrow-key navigation scenario over the fixed ring
`["c2", "c1"]` with edit buffer `"draft"`: older moves to index 0 showing
`c2` (snapshotting the buffer), older again to index 1 showing `c1`, a
further older press at the end changes nothing, then two newer presses
return to index 0 and finally restore the snapshot at index -1.  Moreover,
in every state: no key ever mutates the ring; an older press while at index
`length - 1` leaves everything unchanged; and a newer press at index 0
always restores the snapshot and resets the index to -1. -/
theorem history_navigation :
    handleKeyDown navS0 Key.arrowUp = navS1 ∧
    handleKeyDown navS1 Key.arrowUp = navS2 ∧
    handleKeyDown navS2 Key.arrowUp = navS2 ∧
    handleKeyDown navS2 Key.arrowDown = navS1 ∧
    handleKeyDown navS1 Key.arrowDown = navS4 ∧
    (∀ s k, (handleKeyDown s k).commandHistory = s.commandHistory) ∧
    (∀ s, 0 ≤ s.historyIndex →
      s.historyIndex = (s.commandHistory.length : Int) - 1 →
      handleKeyDown s Key.arrowUp = s) ∧
    (∀ s, s.historyIndex = 0 →
      handleKeyDown s Key.arrowDown =
        { s with historyIndex := -1, inputText := s.tempInputBeforeHistory }) := by
  refine ⟨by decide, by decide, by decide, by decide, by decide,
    fun s k => ?_, fun s h0 hend => ?_, fun s h0 => ?_⟩
  · cases k <;> simp only [handleKeyDown] <;> split <;> try rfl
    all_goals split <;> rfl
  · have hne : ¬ s.historyIndex = -1 := by omega
    simp only [handleKeyDown, hne, if_false]
    rw [if_neg (by omega)]
  · simp only [handleKeyDown]
    rw [if_neg (by omega), if_pos h0]

/-- Witness for C9: the universally quantified parts applied at concrete
states — a further older press at the end of the ring is a no-op, and a
newer press at index 0 restores the snapshot. -/
theorem history_navigation_witness :
    handleKeyDown navS2 Key.arrowUp = navS2 ∧
    handleKeyDown navS1 Key.arrowDown =
      { navS1 with historyIndex := -1,
                   inputText := navS1.tempInputBeforeHistory } :=
  ⟨history_navigation.2.2.2.2.2.2.1 navS2 (by decide) (by decide),
   history_navigation.2.2.2.2.2.2.2 navS1 rfl⟩

end SerialLogger
